import Mathlib

/-!
# Verification of the reality-jump Scene validation pipeline

A shallow embedding of the Scene V1 validation code of the reality-jump
repository, together with theorems settling the frozen claims about it.

Embedded source files:
* `src/shared/schema/scene_v1.schema.ts` — the zod schema contract,
  `validateCaps`, `parseSceneV1`, `isEnemySpawnAnchor`.
* `server/fallback.ts` — the static `FALLBACK_SCENE` constant.
* `server/routes/scene.ts` (vision service section) — the `analyzeImage`
  recovery orchestrator.

JSON values are modelled by the inductive `Json` below; JavaScript numbers
are modelled as rationals (`ℚ`), which is exact for every literal occurring
in the code and for every range check the schema performs.
-/

namespace RJ

/-- A JSON value (the result of `JSON.parse`): null, booleans, numbers
(modelled exactly as rationals), strings, arrays, and objects as ordered
association lists of key/value pairs. -/
inductive Json where
  | null
  | bool (b : Bool)
  | num (q : ℚ)
  | str (s : String)
  | arr (elems : List Json)
  | obj (fields : List (String × Json))

/-- JavaScript truthiness of a JSON value (`if (parsed)` in the source):
`null`, `false`, `0` and `""` are falsy; everything else is truthy. -/
def Json.truthy : Json → Bool
  | .null => false
  | .bool b => b
  | .num q => decide (q ≠ 0)
  | .str s => decide (s ≠ "")
  | .arr _ => true
  | .obj _ => true

/-- Key lookup in a JSON object's field list (first occurrence wins, as for
a JavaScript object literal with duplicate keys read back by key). -/
def lookupField (fields : List (String × Json)) (k : String) : Option Json :=
  fields.lookup k

-- ---------------------------------------------------------------------------
-- Typed Scene model (the zod output type `SceneV1` of scene_v1.schema.ts)
-- ---------------------------------------------------------------------------

/-- `ObjectTypeEnum`: allowed object types. -/
inductive ObjectType where
  | platform | obstacle | collectible | hazard | enemy
deriving DecidableEq

/-- The string value of an `ObjectType` (zod enums are string-valued). -/
def ObjectType.str : ObjectType → String
  | .platform => "platform"
  | .obstacle => "obstacle"
  | .collectible => "collectible"
  | .hazard => "hazard"
  | .enemy => "enemy"

/-- `ObjectCategoryEnum`: real-world category of a detected object. -/
inductive ObjectCategory where
  | plant | electric | food | furniture | other
deriving DecidableEq

/-- `surface_type` enum values. -/
inductive SurfaceKind where
  | solid | bouncy | slippery | breakable | soft
deriving DecidableEq

/-- `BoundsNormalizedSchema` output: a normalized bounding box. -/
structure BoundsNormalized where
  x : ℚ
  y : ℚ
  w : ℚ
  h : ℚ
deriving DecidableEq

/-- `GameMechanicsSchema` output. The schema is `.passthrough()`, so keys
other than the two known ones are preserved; they are carried in `extra`. -/
structure GameMechanics where
  damage_amount : Option ℚ
  speed_multiplier : Option ℚ
  extra : List (String × Json)

/-- `SceneObjectSchema` output: one detected/generated object. -/
structure SceneObject where
  id : String
  type : ObjectType
  label : Option String
  confidence : Option ℚ
  bounds_normalized : BoundsNormalized
  surface_type : Option SurfaceKind
  game_mechanics : Option GameMechanics
  category : Option ObjectCategory
  enemy_spawn_anchor : Option Bool

/-- `NormalizedPointSchema` output. -/
structure NormalizedPoint where
  x : ℚ
  y : ℚ
deriving DecidableEq

/-- A spawn entry (`NormalizedPointSchema.extend({ type: optional string })`). -/
structure SpawnEntry where
  x : ℚ
  y : ℚ
  type : Option String
deriving DecidableEq

/-- `SpawnsSchema` output. -/
structure Spawns where
  player : NormalizedPoint
  exit : NormalizedPoint
  enemies : List SpawnEntry
  pickups : List SpawnEntry
deriving DecidableEq

/-- `ImageDimsSchema` output (positive integers, carried as rationals the
way JavaScript numbers are; the parser enforces integrality). -/
structure ImageDims where
  w : ℚ
  h : ℚ
deriving DecidableEq

/-- `SceneV1Schema` output: the full validated Scene. -/
structure SceneV1 where
  version : ℚ
  image : ImageDims
  objects : List SceneObject
  spawns : Spawns
  rules : List Json

-- ---------------------------------------------------------------------------
-- Structural parsing (the zod schemas as parse functions)
--
-- Each zod schema is embedded as a `Json → Option _` parser: `some` is a
-- successful parse of the whole subtree, `none` any zod issue.  zod's issue
-- messages are not modelled (no claim depends on their content).  zod's
-- default object mode strips unknown keys, so a parser reads exactly the
-- keys its schema declares; `.passthrough()` (game_mechanics only) keeps
-- the remaining keys.
-- ---------------------------------------------------------------------------

/-- `z.number().min(lo).max(hi)`: a number within `[lo, hi]`. -/
def parseNumRange (lo hi : ℚ) (j : Json) : Option ℚ :=
  match j with
  | .num q => if lo ≤ q ∧ q ≤ hi then some q else none
  | _ => none

/-- `z.number().int().positive()`: a positive integer number. -/
def parsePosInt (j : Json) : Option ℚ :=
  match j with
  | .num q => if q.den = 1 ∧ 0 < q then some q else none
  | _ => none

/-- `z.string()`. -/
def parseString : Json → Option String
  | .str s => some s
  | _ => none

/-- `z.string().min(1)`: a non-empty string. -/
def parseNonEmptyString (j : Json) : Option String :=
  match j with
  | .str s => if s.length ≥ 1 then some s else none
  | _ => none

/-- `z.boolean()`. -/
def parseBool : Json → Option Bool
  | .bool b => some b
  | _ => none

/-- `ObjectTypeEnum` parser. -/
def parseObjectType (j : Json) : Option ObjectType :=
  match j with
  | .str "platform" => some .platform
  | .str "obstacle" => some .obstacle
  | .str "collectible" => some .collectible
  | .str "hazard" => some .hazard
  | .str "enemy" => some .enemy
  | _ => none

/-- `ObjectCategoryEnum` parser. -/
def parseCategory (j : Json) : Option ObjectCategory :=
  match j with
  | .str "plant" => some .plant
  | .str "electric" => some .electric
  | .str "food" => some .food
  | .str "furniture" => some .furniture
  | .str "other" => some .other
  | _ => none

/-- `z.enum(['solid','bouncy','slippery','breakable','soft'])` parser. -/
def parseSurfaceKind (j : Json) : Option SurfaceKind :=
  match j with
  | .str "solid" => some .solid
  | .str "bouncy" => some .bouncy
  | .str "slippery" => some .slippery
  | .str "breakable" => some .breakable
  | .str "soft" => some .soft
  | _ => none

/-- A required object key: absent is a zod `Required` issue. -/
def reqParse (p : Json → Option α) : Option Json → Option α
  | none => none
  | some j => p j

/-- An `.optional()` object key: absent parses to `none`. -/
def optParse (p : Json → Option α) : Option Json → Option (Option α)
  | none => some none
  | some j => (p j).map some

/-- A `.default(d)` object key: absent parses to the default. -/
def defParse (p : Json → Option α) (d : α) : Option Json → Option α
  | none => some d
  | some j => p j

/-- Parse every element of a JSON array (`z.array(S)` element pass). -/
def parseAll (p : Json → Option α) : List Json → Option (List α)
  | [] => some []
  | x :: xs => (p x).bind fun a => (parseAll p xs).map fun as => a :: as

/-- `BoundsNormalizedSchema`: object with `x`,`y`,`w`,`h` each in `[0,1]`. -/
def parseBounds (j : Json) : Option BoundsNormalized :=
  match j with
  | .obj fields =>
      (reqParse (parseNumRange 0 1) (lookupField fields "x")).bind fun x =>
      (reqParse (parseNumRange 0 1) (lookupField fields "y")).bind fun y =>
      (reqParse (parseNumRange 0 1) (lookupField fields "w")).bind fun w =>
      (reqParse (parseNumRange 0 1) (lookupField fields "h")).map fun h =>
      ⟨x, y, w, h⟩
  | _ => none

/-- `GameMechanicsSchema` (without the trailing `.optional()`): known keys
`damage_amount` in `[0,50]` and `speed_multiplier` in `[0.5,2.0]`, both
optional; `.passthrough()` keeps all other keys verbatim. -/
def parseGameMechanics (j : Json) : Option GameMechanics :=
  match j with
  | .obj fields =>
      (optParse (parseNumRange 0 50) (lookupField fields "damage_amount")).bind fun da =>
      (optParse (parseNumRange (mkRat 1 2) 2) (lookupField fields "speed_multiplier")).map fun sm =>
      ⟨da, sm, fields.filter fun kv =>
        kv.1 != "damage_amount" && kv.1 != "speed_multiplier"⟩
  | _ => none

/-- `SceneObjectSchema`. -/
def parseSceneObject (j : Json) : Option SceneObject :=
  match j with
  | .obj fields =>
      (reqParse parseNonEmptyString (lookupField fields "id")).bind fun id =>
      (reqParse parseObjectType (lookupField fields "type")).bind fun ty =>
      (optParse parseString (lookupField fields "label")).bind fun label =>
      (optParse (parseNumRange 0 1) (lookupField fields "confidence")).bind fun conf =>
      (reqParse parseBounds (lookupField fields "bounds_normalized")).bind fun bounds =>
      (optParse parseSurfaceKind (lookupField fields "surface_type")).bind fun surf =>
      (optParse parseGameMechanics (lookupField fields "game_mechanics")).bind fun gm =>
      (optParse parseCategory (lookupField fields "category")).bind fun cat =>
      (optParse parseBool (lookupField fields "enemy_spawn_anchor")).map fun anchor =>
      ⟨id, ty, label, conf, bounds, surf, gm, cat, anchor⟩
  | _ => none

/-- `NormalizedPointSchema`. -/
def parsePoint (j : Json) : Option NormalizedPoint :=
  match j with
  | .obj fields =>
      (reqParse (parseNumRange 0 1) (lookupField fields "x")).bind fun x =>
      (reqParse (parseNumRange 0 1) (lookupField fields "y")).map fun y =>
      ⟨x, y⟩
  | _ => none

/-- `NormalizedPointSchema.extend({ type: z.string().optional() })`. -/
def parseSpawnEntry (j : Json) : Option SpawnEntry :=
  match j with
  | .obj fields =>
      (reqParse (parseNumRange 0 1) (lookupField fields "x")).bind fun x =>
      (reqParse (parseNumRange 0 1) (lookupField fields "y")).bind fun y =>
      (optParse parseString (lookupField fields "type")).map fun ty =>
      ⟨x, y, ty⟩
  | _ => none

/-- `z.array(spawn entry).default([])` body: must be an array. -/
def parseSpawnList (j : Json) : Option (List SpawnEntry) :=
  match j with
  | .arr xs => parseAll parseSpawnEntry xs
  | _ => none

/-- `SpawnsSchema` over the four looked-up keys. -/
def spawnsFromFields (player exit enemies pickups : Option Json) : Option Spawns :=
  (reqParse parsePoint player).bind fun p =>
  (reqParse parsePoint exit).bind fun e =>
  (defParse parseSpawnList [] enemies).bind fun en =>
  (defParse parseSpawnList [] pickups).map fun pk =>
  ⟨p, e, en, pk⟩

/-- `SpawnsSchema`. -/
def parseSpawns (j : Json) : Option Spawns :=
  match j with
  | .obj fields =>
      spawnsFromFields (lookupField fields "player") (lookupField fields "exit")
        (lookupField fields "enemies") (lookupField fields "pickups")
  | _ => none

/-- `ImageDimsSchema`. -/
def parseImageDims (j : Json) : Option ImageDims :=
  match j with
  | .obj fields =>
      (reqParse parsePosInt (lookupField fields "w")).bind fun w =>
      (reqParse parsePosInt (lookupField fields "h")).map fun h =>
      ⟨w, h⟩
  | _ => none

/-- `z.literal(1)` for the `version` key. -/
def parseVersionLit (j : Json) : Option ℚ :=
  match j with
  | .num q => if q = 1 then some q else none
  | _ => none

/-- `z.array(SceneObjectSchema).max(25).default([])` body: an array of at
most 25 entries, each a valid SceneObject. -/
def parseObjectsArr (j : Json) : Option (List SceneObject) :=
  match j with
  | .arr xs =>
      if xs.length ≤ 25 then parseAll parseSceneObject xs else none
  | _ => none

/-- `z.array(z.unknown()).default([])` body for `rules`: any array. -/
def parseRulesArr (j : Json) : Option (List Json) :=
  match j with
  | .arr xs => some xs
  | _ => none

/-- `SceneV1Schema` over the five looked-up top-level keys (zod's default
object mode strips every other key). -/
def sceneFromFields (version image objects spawns rules : Option Json) : Option SceneV1 :=
  (reqParse parseVersionLit version).bind fun v =>
  (reqParse parseImageDims image).bind fun img =>
  (defParse parseObjectsArr [] objects).bind fun objs =>
  (reqParse parseSpawns spawns).bind fun spw =>
  (defParse parseRulesArr [] rules).map fun rls =>
  ⟨v, img, objs, spw, rls⟩

/-- `SceneV1Schema.safeParse` (success/failure level). -/
def sceneSafeParse (j : Json) : Option SceneV1 :=
  match j with
  | .obj fields =>
      sceneFromFields (lookupField fields "version") (lookupField fields "image")
        (lookupField fields "objects") (lookupField fields "spawns")
        (lookupField fields "rules")
  | _ => none

-- ---------------------------------------------------------------------------
-- validateCaps (scene_v1.schema.ts lines 140–157)
-- ---------------------------------------------------------------------------

/-- The argument shape of `validateCaps`: records with a string `type`
field (TypeScript `{ type: string }[]`). -/
structure CapObj where
  type : String
deriving DecidableEq

/-- `CapResult`. -/
structure CapResult where
  ok : Bool
  errors : List String
deriving DecidableEq

/-- `TYPE_CAPS`, in `Object.entries` (insertion) order. -/
def TYPE_CAPS : List (String × ℕ) :=
  [("platform", 12), ("obstacle", 8), ("collectible", 10), ("hazard", 8), ("enemy", 2)]

/-- One step of the tally loop: `counts[k] = (counts[k] || 0) + 1` on an
association-list model of the `counts` record. -/
def bump (counts : List (String × ℕ)) (k : String) : List (String × ℕ) :=
  match counts with
  | [] => [(k, 1)]
  | (k', n) :: rest => if k' = k then (k', n + 1) :: rest else (k', n) :: bump rest k

/-- The `for (const obj of objects)` tally loop of `validateCaps`. -/
def tally (objects : List CapObj) : List (String × ℕ) :=
  objects.foldl (fun acc o => bump acc o.type) []

/-- `counts[type] || 0`. -/
def countOf (counts : List (String × ℕ)) (k : String) : ℕ :=
  (counts.lookup k).getD 0

/-- The overage message pushed for a violated cap. -/
def capMsg (ty : String) (count cap : ℕ) : String :=
  "Too many " ++ ty ++ " objects: " ++ toString count ++ " (max " ++ toString cap ++ ")"

/-- `validateCaps`: tally per-type counts, compare each against `TYPE_CAPS`,
report every violation; `ok` iff the error list is empty. -/
def validateCaps (objects : List CapObj) : CapResult :=
  let counts := tally objects
  let errors := TYPE_CAPS.filterMap fun p =>
    let count := countOf counts p.1
    if count > p.2 then some (capMsg p.1 count p.2) else none
  ⟨errors.length == 0, errors⟩

-- ---------------------------------------------------------------------------
-- parseSceneV1 (scene_v1.schema.ts lines 184–210)
-- ---------------------------------------------------------------------------

/-- The discriminated union returned by `parseSceneV1`.  In the structural
failure branch the zod issue strings are not modelled and the error list is
left empty; in the cap failure branch it is exactly `capResult.errors`. -/
inductive ParseResult where
  | ok (data : SceneV1)
  | fail (errors : List String)

/-- `parseSceneV1`: zod structural parse, then `validateCaps` on the parsed
objects (passed as their `type` fields, as TypeScript's structural typing
does). -/
def parseSceneV1 (input : Json) : ParseResult :=
  match sceneSafeParse input with
  | none => .fail []
  | some data =>
      let capResult := validateCaps (data.objects.map fun o => ⟨o.type.str⟩)
      if capResult.ok then .ok data else .fail capResult.errors

-- ---------------------------------------------------------------------------
-- Enemy spawn anchor helpers (scene_v1.schema.ts lines 245–262)
-- ---------------------------------------------------------------------------

/-- `ENEMY_ANCHOR_CATEGORIES` membership: `plant` or `electric`. -/
def isAnchorCategory (c : ObjectCategory) : Bool :=
  match c with
  | .plant => true
  | .electric => true
  | _ => false

/-- `isEnemySpawnAnchor`: true when the AI explicitly flagged the object or
its category is plant/electric.  (`obj.category && SET.has(obj.category)`:
an absent category short-circuits to false.) -/
def isEnemySpawnAnchor (obj : SceneObject) : Bool :=
  if obj.enemy_spawn_anchor = some true then true
  else
    match obj.category with
    | some c => isAnchorCategory c
    | none => false

/-- `getEnemySpawnAnchors`. -/
def getEnemySpawnAnchors (objects : List SceneObject) : List SceneObject :=
  objects.filter isEnemySpawnAnchor

-- ---------------------------------------------------------------------------
-- Helper lemmas about the tally loop of validateCaps
-- ---------------------------------------------------------------------------

/-- Number of objects whose `type` field is `t`. -/
def countType (objects : List CapObj) (t : String) : ℕ :=
  objects.countP fun o => o.type == t

/-- Unfolding `countOf` over a cons cell of the counts list. -/
theorem countOf_cons (a : String) (n : ℕ) (rest : List (String × ℕ)) (k : String) :
    countOf ((a, n) :: rest) k = if k = a then n else countOf rest k := by
  by_cases h : k = a
  · have hb : (k == a) = true := beq_iff_eq.mpr h
    simp [countOf, List.lookup_cons, hb, h]
  · have hb : (k == a) = false := beq_eq_false_iff_ne.mpr h
    simp [countOf, List.lookup_cons, hb, h]

/-- `bump` increments exactly the bumped key's count. -/
theorem countOf_bump (acc : List (String × ℕ)) (k k' : String) :
    countOf (bump acc k) k' = if k' = k then countOf acc k' + 1 else countOf acc k' := by
  induction acc with
  | nil =>
      show countOf [(k, 1)] k' = _
      rw [countOf_cons]
      by_cases h : k' = k <;> simp [h, countOf, List.lookup]
  | cons a rest ih =>
      obtain ⟨ka, na⟩ := a
      by_cases hak : ka = k
      · subst hak
        have hbump : bump ((ka, na) :: rest) ka = (ka, na + 1) :: rest := by
          simp [bump]
        rw [hbump, countOf_cons, countOf_cons]
        by_cases h : k' = ka <;> simp [h]
      · have hbump : bump ((ka, na) :: rest) k = (ka, na) :: bump rest k := by
          simp [bump, hak]
        rw [hbump, countOf_cons, countOf_cons]
        by_cases h : k' = ka
        · subst h
          simp [hak]
        · simp [h, ih]

/-- The tally loop computes occurrence counts. -/
theorem countOf_tally (objects : List CapObj) (k : String) :
    countOf (tally objects) k = countType objects k := by
  suffices h : ∀ acc, countOf (objects.foldl (fun acc o => bump acc o.type) acc) k
      = countOf acc k + countType objects k by
    simpa [tally, countOf, List.lookup] using h []
  induction objects with
  | nil => intro acc; simp [countType]
  | cons o os ih =>
      intro acc
      simp only [List.foldl_cons, ih, countOf_bump, countType, List.countP_cons]
      by_cases h : k = o.type
      · have hb : (o.type == k) = true := beq_iff_eq.mpr h.symm
        simp [h, hb]
        omega
      · have hb : (o.type == k) = false := beq_eq_false_iff_ne.mpr fun e => h e.symm
        simp [h, hb]

/-- C7: `validateCaps` reports all per-type cap violations at once — its
error list has exactly one entry for each type of the cap table whose count
exceeds its cap — and `ok` is true exactly when that list is empty. -/
theorem claim_C7_validateCaps_reports_all (objects : List CapObj) :
    (validateCaps objects).errors =
      (TYPE_CAPS.filterMap fun p =>
        if countType objects p.1 > p.2 then
          some (capMsg p.1 (countType objects p.1) p.2)
        else none)
    ∧ ((validateCaps objects).ok = true ↔ (validateCaps objects).errors = []) := by
  constructor
  · simp only [validateCaps, countOf_tally]
  · simp only [validateCaps]
    simp [List.length_eq_zero]

/-- C5: `isEnemySpawnAnchor o` is true if and only if `o.enemy_spawn_anchor`
is `true` or `o.category` is `plant` or `electric`; in every other case
(absent category, category food/furniture/other, anchor flag absent or
false) it is false. -/
theorem claim_C5_isEnemySpawnAnchor_iff (o : SceneObject) :
    isEnemySpawnAnchor o = true ↔
      (o.enemy_spawn_anchor = some true ∨
        o.category = some ObjectCategory.plant ∨
        o.category = some ObjectCategory.electric) := by
  by_cases h : o.enemy_spawn_anchor = some true
  · simp [isEnemySpawnAnchor, h]
  · rcases hc : o.category with _ | c
    · simp [isEnemySpawnAnchor, h, hc]
    · cases c <;> simp [isEnemySpawnAnchor, isAnchorCategory, h, hc]

-- ---------------------------------------------------------------------------
-- Inversion lemmas for the structural parse
-- ---------------------------------------------------------------------------

/-- `parseAll` succeeds with a list of the same length as its input. -/
theorem parseAll_length (p : Json → Option α) (xs : List Json) (ys : List α)
    (h : parseAll p xs = some ys) : ys.length = xs.length := by
  induction xs generalizing ys with
  | nil =>
      simp only [parseAll, Option.some.injEq] at h
      subst h; rfl
  | cons x xs ih =>
      simp only [parseAll, Option.bind_eq_some, Option.map_eq_some'] at h
      obtain ⟨a, _, as, has, rfl⟩ := h
      simp [ih as has]

/-- A successful objects-array parse yields at most 25 objects. -/
theorem parseObjectsArr_le (j : Json) (objs : List SceneObject)
    (h : parseObjectsArr j = some objs) : objs.length ≤ 25 := by
  cases j with
  | arr xs =>
      simp only [parseObjectsArr] at h
      by_cases hl : xs.length ≤ 25
      · rw [if_pos hl] at h
        rw [parseAll_length _ _ _ h]
        exact hl
      · rw [if_neg hl] at h
        exact absurd h (by simp)
  | null => exact absurd h (by simp [parseObjectsArr])
  | bool b => exact absurd h (by simp [parseObjectsArr])
  | num q => exact absurd h (by simp [parseObjectsArr])
  | str s => exact absurd h (by simp [parseObjectsArr])
  | obj fs => exact absurd h (by simp [parseObjectsArr])

/-- Inversion of `defParse`. -/
theorem defParse_eq_some {p : Json → Option α} {d a : α} {o : Option Json}
    (h : defParse p d o = some a) :
    (o = none ∧ a = d) ∨ ∃ j, o = some j ∧ p j = some a := by
  cases o with
  | none =>
      left
      simp only [defParse, Option.some.injEq] at h
      exact ⟨rfl, h.symm⟩
  | some j =>
      right
      exact ⟨j, rfl, h⟩

/-- Inversion of the top-level field chain of `SceneV1Schema`. -/
theorem sceneFromFields_eq_some {v i o s r : Option Json} {d : SceneV1}
    (h : sceneFromFields v i o s r = some d) :
    ∃ ver img objs spw rls,
      reqParse parseVersionLit v = some ver ∧
      reqParse parseImageDims i = some img ∧
      defParse parseObjectsArr [] o = some objs ∧
      reqParse parseSpawns s = some spw ∧
      defParse parseRulesArr [] r = some rls ∧
      d = ⟨ver, img, objs, spw, rls⟩ := by
  unfold sceneFromFields at h
  simp only [Option.bind_eq_some, Option.map_eq_some'] at h
  obtain ⟨ver, hv, img, hi, objs, ho, spw, hs2, rls, hr, rfl⟩ := h
  exact ⟨ver, img, objs, spw, rls, hv, hi, ho, hs2, hr, rfl⟩

/-- A structurally valid Scene has at most 25 objects. -/
theorem sceneSafeParse_objects_le (j : Json) (d : SceneV1)
    (h : sceneSafeParse j = some d) : d.objects.length ≤ 25 := by
  unfold sceneSafeParse at h
  cases j <;> simp only at h <;> try exact absurd h (by simp)
  case obj fields =>
    obtain ⟨ver, img, objs, spw, rls, _, _, ho, _, _, rfl⟩ := sceneFromFields_eq_some h
    rcases defParse_eq_some ho with ⟨_, rfl⟩ | ⟨jo, _, hp⟩
    · simp
    · exact parseObjectsArr_le jo objs hp

-- ---------------------------------------------------------------------------
-- C1: cap invariant of accepted Scenes
-- ---------------------------------------------------------------------------

/-- Number of typed scene objects of a given `ObjectType`. -/
def countObjType (objects : List SceneObject) (t : ObjectType) : ℕ :=
  objects.countP fun o => o.type == t

/-- The string of an `ObjectType` equals another's iff the types are equal. -/
theorem ObjectType.str_beq (a b : ObjectType) : (a.str == b.str) = (a == b) := by
  cases a <;> cases b <;> decide

/-- Counting by type string over the `validateCaps` view agrees with
counting typed objects. -/
theorem countType_map_str (objects : List SceneObject) (t : ObjectType) :
    countType (objects.map fun o => ⟨o.type.str⟩) t.str = countObjType objects t := by
  unfold countType countObjType
  rw [List.countP_map]
  congr 1
  funext o
  exact ObjectType.str_beq o.type t

/-- An accepted `parseSceneV1` result has `validateCaps` ok on its objects. -/
theorem parseSceneV1_ok_inv (input : Json) (data : SceneV1)
    (h : parseSceneV1 input = .ok data) :
    sceneSafeParse input = some data ∧
      (validateCaps (data.objects.map fun o => ⟨o.type.str⟩)).ok = true := by
  unfold parseSceneV1 at h
  rcases hs : sceneSafeParse input with _ | d
  · rw [hs] at h
    exact absurd h (by simp)
  · rw [hs] at h
    simp only at h
    by_cases hc : (validateCaps (d.objects.map fun o => ⟨o.type.str⟩)).ok = true
    · rw [if_pos hc] at h
      have hd : d = data := by
        cases h
        rfl
      subst hd
      exact ⟨rfl, hc⟩
    · rw [if_neg hc] at h
      exact absurd h (by simp)

/-- If `validateCaps` is ok, no type of the cap table exceeds its cap. -/
theorem validateCaps_ok_le (objects : List CapObj)
    (h : (validateCaps objects).ok = true) :
    ∀ p ∈ TYPE_CAPS, countType objects p.1 ≤ p.2 := by
  intro p hp
  have herr : (validateCaps objects).errors = [] :=
    ((claim_C7_validateCaps_reports_all objects).2).mp h
  rw [(claim_C7_validateCaps_reports_all objects).1] at herr
  rw [List.filterMap_eq_nil_iff] at herr
  have := herr p hp
  by_cases hgt : countType objects p.1 > p.2
  · rw [if_pos hgt] at this
    exact absurd this (by simp)
  · omega

/-- C1: every input accepted by `parseSceneV1` satisfies the cap invariant —
at most 12 platforms, 8 obstacles, 10 collectibles, 8 hazards, 2 enemies,
and at most 25 objects in total. -/
theorem claim_C1_cap_invariant (input : Json) (data : SceneV1)
    (h : parseSceneV1 input = .ok data) :
    countObjType data.objects .platform ≤ 12 ∧
    countObjType data.objects .obstacle ≤ 8 ∧
    countObjType data.objects .collectible ≤ 10 ∧
    countObjType data.objects .hazard ≤ 8 ∧
    countObjType data.objects .enemy ≤ 2 ∧
    data.objects.length ≤ 25 := by
  obtain ⟨hs, hc⟩ := parseSceneV1_ok_inv input data h
  have hcap := validateCaps_ok_le _ hc
  have h25 := sceneSafeParse_objects_le input data hs
  refine ⟨?_, ?_, ?_, ?_, ?_, h25⟩
  · have := hcap ("platform", 12) (by simp [TYPE_CAPS])
    rwa [show "platform" = ObjectType.platform.str from rfl, countType_map_str] at this
  · have := hcap ("obstacle", 8) (by simp [TYPE_CAPS])
    rwa [show "obstacle" = ObjectType.obstacle.str from rfl, countType_map_str] at this
  · have := hcap ("collectible", 10) (by simp [TYPE_CAPS])
    rwa [show "collectible" = ObjectType.collectible.str from rfl, countType_map_str] at this
  · have := hcap ("hazard", 8) (by simp [TYPE_CAPS])
    rwa [show "hazard" = ObjectType.hazard.str from rfl, countType_map_str] at this
  · have := hcap ("enemy", 2) (by simp [TYPE_CAPS])
    rwa [show "enemy" = ObjectType.enemy.str from rfl, countType_map_str] at this

/-- Field list of a small concrete Scene input: one platform object,
player and exit. -/
def sampleSceneFields : List (String × Json) :=
  [("version", .num 1),
        ("image", .obj [("w", .num 1024), ("h", .num 768)]),
        ("objects", .arr [.obj [("id", .str "plat_1"),
                                ("type", .str "platform"),
                                ("bounds_normalized",
                                  .obj [("x", .num 0), ("y", .num (mkRat 9 10)),
                                        ("w", .num 1), ("h", .num (mkRat 1 10))])]]),
        ("spawns", .obj [("player", .obj [("x", .num 0), ("y", .num (mkRat 1 2))]),
                         ("exit", .obj [("x", .num 1), ("y", .num (mkRat 1 2))])])]

/-- The small concrete Scene input as a JSON value. -/
def sampleSceneJson : Json := .obj sampleSceneFields

/-- The Scene that `parseSceneV1` produces from `sampleSceneJson`. -/
def sampleScene : SceneV1 :=
  ⟨1, ⟨1024, 768⟩,
    [⟨"plat_1", .platform, none, none, ⟨0, mkRat 9 10, 1, mkRat 1 10⟩, none, none, none, none⟩],
    ⟨⟨0, mkRat 1 2⟩, ⟨1, mkRat 1 2⟩, [], []⟩, []⟩

/-- Witness for C1 at a concrete accepted input. -/
theorem claim_C1_cap_invariant_witness :
    countObjType sampleScene.objects .platform ≤ 12 ∧
    countObjType sampleScene.objects .obstacle ≤ 8 ∧
    countObjType sampleScene.objects .collectible ≤ 10 ∧
    countObjType sampleScene.objects .hazard ≤ 8 ∧
    countObjType sampleScene.objects .enemy ≤ 2 ∧
    sampleScene.objects.length ≤ 25 :=
  claim_C1_cap_invariant sampleSceneJson sampleScene (by rfl)

-- ---------------------------------------------------------------------------
-- C9: game_mechanics passthrough and range checks
-- ---------------------------------------------------------------------------

/-- C9: the game_mechanics parse preserves unrecognized keys in its output
(`.passthrough()`), while rejecting a present `damage_amount` outside
`[0,50]` or a present `speed_multiplier` outside `[0.5,2.0]`. -/
theorem claim_C9_game_mechanics (fields : List (String × Json)) :
    (∀ gm, parseGameMechanics (.obj fields) = some gm →
        gm.extra = fields.filter fun kv =>
          kv.1 != "damage_amount" && kv.1 != "speed_multiplier") ∧
    (∀ q, lookupField fields "damage_amount" = some (.num q) →
        ¬(0 ≤ q ∧ q ≤ 50) → parseGameMechanics (.obj fields) = none) ∧
    (∀ q, lookupField fields "speed_multiplier" = some (.num q) →
        ¬(mkRat 1 2 ≤ q ∧ q ≤ 2) → parseGameMechanics (.obj fields) = none) := by
  refine ⟨?_, ?_, ?_⟩
  · intro gm h
    simp only [parseGameMechanics, Option.bind_eq_some, Option.map_eq_some'] at h
    obtain ⟨da, _, sm, _, rfl⟩ := h
    rfl
  · intro q hd hr
    simp [parseGameMechanics, hd, optParse, parseNumRange, hr]
  · intro q hs hr
    simp only [parseGameMechanics]
    rcases hda : optParse (parseNumRange 0 50) (lookupField fields "damage_amount") with _ | da
    · simp [hda]
    · simp [hda, hs, optParse, parseNumRange, hr]

/-- Witness for C9: an out-of-range `damage_amount` is rejected, and an
unrecognized key survives into the parsed output. -/
theorem claim_C9_game_mechanics_witness :
    parseGameMechanics (.obj [("damage_amount", .num 60)]) = none ∧
    GameMechanics.extra ⟨none, none, [("custom", .bool true)]⟩ =
      List.filter (fun kv => kv.1 != "damage_amount" && kv.1 != "speed_multiplier")
        [("custom", .bool true)] :=
  ⟨(claim_C9_game_mechanics [("damage_amount", .num 60)]).2.1 60 (by rfl) (by decide),
   (claim_C9_game_mechanics [("custom", .bool true)]).1
     ⟨none, none, [("custom", .bool true)]⟩ (by rfl)⟩

-- ---------------------------------------------------------------------------
-- Generic lookup lemmas for field-list transformations
-- ---------------------------------------------------------------------------

/-- Appending a pair with a different key does not change a lookup. -/
theorem lookupField_append_single (fields : List (String × Json)) (k key : String)
    (v : Json) (hne : key ≠ k) :
    lookupField (fields ++ [(k, v)]) key = lookupField fields key := by
  induction fields with
  | nil =>
      simp [lookupField, List.lookup, beq_eq_false_iff_ne.mpr hne]
  | cons a rest ih =>
      obtain ⟨ka, ja⟩ := a
      by_cases h : key = ka
      · have hb : (key == ka) = true := beq_iff_eq.mpr h
        simp [lookupField, List.lookup_cons, hb]
      · have hb : (key == ka) = false := beq_eq_false_iff_ne.mpr h
        simpa [lookupField, List.lookup_cons, hb] using ih

/-- Filtering by a key predicate that holds at `key` preserves the lookup. -/
theorem lookupField_filter_true (p : String → Bool) (fields : List (String × Json))
    (key : String) (hp : p key = true) :
    lookupField (fields.filter fun kv => p kv.1) key = lookupField fields key := by
  induction fields with
  | nil => rfl
  | cons a rest ih =>
      obtain ⟨ka, ja⟩ := a
      rw [List.filter_cons]
      by_cases hpk : p ka = true
      · rw [if_pos hpk]
        by_cases h : key = ka
        · subst h
          simp [lookupField, List.lookup_cons]
        · have hb : (key == ka) = false := beq_eq_false_iff_ne.mpr h
          simp only [lookupField, List.lookup_cons, hb]
          exact ih
      · rw [if_neg hpk]
        have hne : key ≠ ka := fun e => hpk (e ▸ hp)
        have hb : (key == ka) = false := beq_eq_false_iff_ne.mpr hne
        simp only [lookupField, List.lookup_cons, hb]
        exact ih

/-- Filtering by a key predicate that fails at `key` erases the key. -/
theorem lookupField_filter_false (p : String → Bool) (fields : List (String × Json))
    (key : String) (hp : p key = false) :
    lookupField (fields.filter fun kv => p kv.1) key = none := by
  induction fields with
  | nil => rfl
  | cons a rest ih =>
      obtain ⟨ka, ja⟩ := a
      rw [List.filter_cons]
      by_cases hpk : p ka = true
      · rw [if_pos hpk]
        have hne : key ≠ ka := by
          intro e
          rw [e, hpk] at hp
          exact Bool.true_eq_false.mp hp
        have hb : (key == ka) = false := beq_eq_false_iff_ne.mpr hne
        simp only [lookupField, List.lookup_cons, hb]
        exact ih
      · rw [if_neg hpk]
        exact ih

/-- Mapping a value transformation at one target key: lookups at the target
key see the transformed value, other lookups are unchanged. -/
theorem lookupField_map_valueAt (f : Json → Json) (tkey : String)
    (fields : List (String × Json)) (key : String) :
    lookupField (fields.map fun kv => if kv.1 = tkey then (kv.1, f kv.2) else kv) key =
      if key = tkey then (lookupField fields key).map f else lookupField fields key := by
  induction fields with
  | nil => by_cases h : key = tkey <;> simp [lookupField, List.lookup, h]
  | cons a rest ih =>
      obtain ⟨ka, ja⟩ := a
      simp only [List.map_cons]
      by_cases hka : ka = tkey
      · subst hka
        rw [show (if (ka, ja).1 = ka then ((ka, ja).1, f (ka, ja).2) else (ka, ja)) =
            (ka, f ja) from by simp]
        by_cases h : key = ka
        · subst h
          simp [lookupField, List.lookup_cons]
        · have hb : (key == ka) = false := beq_eq_false_iff_ne.mpr h
          simp only [lookupField, List.lookup_cons, hb, if_neg h]
          simpa [lookupField, h] using ih
      · rw [show (if (ka, ja).1 = tkey then ((ka, ja).1, f (ka, ja).2) else (ka, ja)) =
            (ka, ja) from by simp [hka]]
        by_cases h : key = ka
        · subst h
          have hkt : ¬ key = tkey := hka
          simp [lookupField, List.lookup_cons, hkt]
        · have hb : (key == ka) = false := beq_eq_false_iff_ne.mpr h
          simp only [lookupField, List.lookup_cons, hb]
          exact ih

-- ---------------------------------------------------------------------------
-- C10: unknown top-level keys are accepted and stripped
-- ---------------------------------------------------------------------------

/-- C10: appending an arbitrary extra top-level key (not one of the five
schema keys) to an accepted input leaves `parseSceneV1` accepting it, with
the identical Scene — the extra key is stripped, not preserved. -/
theorem claim_C10_extra_key_ignored (fields : List (String × Json)) (k : String)
    (v : Json) (data : SceneV1)
    (hk : k ∉ (["version", "image", "objects", "spawns", "rules"] : List String))
    (h : parseSceneV1 (.obj fields) = .ok data) :
    parseSceneV1 (.obj (fields ++ [(k, v)])) = .ok data := by
  obtain ⟨h1, h2, h3, h4, h5⟩ : k ≠ "version" ∧ k ≠ "image" ∧ k ≠ "objects" ∧
      k ≠ "spawns" ∧ k ≠ "rules" := by simpa using hk
  obtain ⟨hs, hc⟩ := parseSceneV1_ok_inv _ _ h
  have hs' : sceneSafeParse (.obj (fields ++ [(k, v)])) = some data := by
    simp only [sceneSafeParse] at hs ⊢
    rw [lookupField_append_single _ _ _ _ (Ne.symm h1),
      lookupField_append_single _ _ _ _ (Ne.symm h2),
      lookupField_append_single _ _ _ _ (Ne.symm h3),
      lookupField_append_single _ _ _ _ (Ne.symm h4),
      lookupField_append_single _ _ _ _ (Ne.symm h5)]
    exact hs
  unfold parseSceneV1
  rw [hs']
  simp only
  rw [if_pos hc]

/-- Witness for C10 at a concrete accepted input and extra key. -/
theorem claim_C10_extra_key_ignored_witness :
    parseSceneV1 (.obj (sampleSceneFields ++ [("extra_key", .bool true)])) =
      .ok sampleScene :=
  claim_C10_extra_key_ignored sampleSceneFields "extra_key" (.bool true) sampleScene
    (by decide) (by rfl)

-- ---------------------------------------------------------------------------
-- C8: defaulting of omitted objects / rules / spawns.enemies / spawns.pickups
-- ---------------------------------------------------------------------------

/-- Inversion of `reqParse`. -/
theorem reqParse_eq_some {p : Json → Option α} {o : Option Json} {a : α}
    (h : reqParse p o = some a) : ∃ j, o = some j ∧ p j = some a := by
  cases o with
  | none => exact absurd h (by simp [reqParse])
  | some j => exact ⟨j, rfl, h⟩

/-- Inversion of the spawns field chain of `SpawnsSchema`. -/
theorem spawnsFromFields_eq_some {p e en pk : Option Json} {s : Spawns}
    (h : spawnsFromFields p e en pk = some s) :
    ∃ pp ee ens pks,
      reqParse parsePoint p = some pp ∧
      reqParse parsePoint e = some ee ∧
      defParse parseSpawnList [] en = some ens ∧
      defParse parseSpawnList [] pk = some pks ∧
      s = ⟨pp, ee, ens, pks⟩ := by
  unfold spawnsFromFields at h
  simp only [Option.bind_eq_some, Option.map_eq_some'] at h
  obtain ⟨pp, hp, ee, he, ens, hen, pks, hpk, rfl⟩ := h
  exact ⟨pp, ee, ens, pks, hp, he, hen, hpk, rfl⟩

/-- Keys of the spawns object kept by the C8 omission transform. -/
def spawnKeep (k : String) : Bool :=
  k != "enemies" && k != "pickups"

/-- Keys of the top-level object kept by the C8 omission transform. -/
def topKeep (k : String) : Bool :=
  k != "objects" && k != "rules"

/-- Drop the `enemies` and `pickups` keys from a spawns JSON object. -/
def omitSpawnLists : Json → Json
  | .obj fields => .obj (fields.filter fun kv => spawnKeep kv.1)
  | j => j

/-- Drop `objects` and `rules` at the top level and the `enemies` and
`pickups` keys inside `spawns`: the input "omitting objects, rules,
spawns.enemies and spawns.pickups". -/
def omitDefaulted : Json → Json
  | .obj fields => .obj ((fields.filter fun kv => topKeep kv.1).map
      fun kv => if kv.1 = "spawns" then (kv.1, omitSpawnLists kv.2) else kv)
  | j => j

/-- Dropping `enemies`/`pickups` from an accepted spawns object re-parses
with those two lists defaulted to empty. -/
theorem parseSpawns_omit (sj : Json) (spw : Spawns) (h : parseSpawns sj = some spw) :
    parseSpawns (omitSpawnLists sj) = some ⟨spw.player, spw.exit, [], []⟩ := by
  cases sj with
  | obj f =>
      simp only [parseSpawns] at h
      obtain ⟨pp, ee, ens, pks, hp, he, _, _, rfl⟩ := spawnsFromFields_eq_some h
      simp only [omitSpawnLists, parseSpawns]
      rw [lookupField_filter_true _ _ _ (by decide),
        lookupField_filter_true _ _ _ (by decide),
        lookupField_filter_false _ _ _ (by decide),
        lookupField_filter_false _ _ _ (by decide)]
      simp [spawnsFromFields, hp, he, defParse]
  | null => exact absurd h (by simp [parseSpawns])
  | bool b => exact absurd h (by simp [parseSpawns])
  | num q => exact absurd h (by simp [parseSpawns])
  | str s => exact absurd h (by simp [parseSpawns])
  | arr xs => exact absurd h (by simp [parseSpawns])

/-- C8: for every accepted input, the same input with `objects`, `rules`,
`spawns.enemies` and `spawns.pickups` omitted is still accepted, and each
of those four fields of the resulting Scene is the empty sequence. -/
theorem claim_C8_defaulting (input : Json) (data : SceneV1)
    (h : parseSceneV1 input = .ok data) :
    parseSceneV1 (omitDefaulted input) =
      .ok ⟨data.version, data.image, [],
        ⟨data.spawns.player, data.spawns.exit, [], []⟩, []⟩ := by
  obtain ⟨hs, _⟩ := parseSceneV1_ok_inv _ _ h
  cases input with
  | obj fields =>
      simp only [sceneSafeParse] at hs
      obtain ⟨ver, img, objs, spw, rls, hv, hi, ho, hsp, hr, rfl⟩ :=
        sceneFromFields_eq_some hs
      obtain ⟨sj, hlk, hps⟩ := reqParse_eq_some hsp
      have hnew : sceneSafeParse (omitDefaulted (.obj fields)) =
          some ⟨ver, img, [], ⟨spw.player, spw.exit, [], []⟩, []⟩ := by
        simp only [omitDefaulted, sceneSafeParse]
        simp only [lookupField_map_valueAt, reduceIte]
        rw [lookupField_filter_true _ _ _ (by decide),
          lookupField_filter_true _ _ _ (by decide),
          lookupField_filter_false _ _ _ (by decide),
          lookupField_filter_true _ _ _ (by decide),
          lookupField_filter_false _ _ _ (by decide)]
        obtain ⟨jv, hjv, hpv⟩ := reqParse_eq_some hv
        obtain ⟨ji, hji, hpi⟩ := reqParse_eq_some hi
        rw [hlk, hjv, hji]
        simp [sceneFromFields, reqParse, defParse, hpv, hpi,
          parseSpawns_omit sj spw hps]
      unfold parseSceneV1
      rw [hnew]
      simp only
      rw [if_pos (by decide)]
  | null => exact absurd hs (by simp [sceneSafeParse])
  | bool b => exact absurd hs (by simp [sceneSafeParse])
  | num q => exact absurd hs (by simp [sceneSafeParse])
  | str s => exact absurd hs (by simp [sceneSafeParse])
  | arr xs => exact absurd hs (by simp [sceneSafeParse])

/-- Witness for C8 at the concrete accepted sample input. -/
theorem claim_C8_defaulting_witness :
    parseSceneV1 (omitDefaulted sampleSceneJson) =
      .ok ⟨sampleScene.version, sampleScene.image, [],
        ⟨sampleScene.spawns.player, sampleScene.spawns.exit, [], []⟩, []⟩ :=
  claim_C8_defaulting sampleSceneJson sampleScene (by rfl)

-- ---------------------------------------------------------------------------
-- The server-side Scene shape and the FALLBACK_SCENE constant
-- (server/fallback.ts; field shape as used by the literal, matching the
-- LevelData interface of the game types plus the `version` field)
-- ---------------------------------------------------------------------------

/-- A spawn point `{x, y}` of the server scene shape. -/
structure SSpawnPoint where
  x : ℚ
  y : ℚ
deriving DecidableEq

/-- A pickup spawn `{type, x, y}` of the server scene shape. -/
structure SPickupSpawn where
  type : String
  x : ℚ
  y : ℚ
deriving DecidableEq

/-- An enemy spawn of the server scene shape (`{type, x, y, patrol?}`). -/
structure SEnemySpawn where
  type : String
  x : ℚ
  y : ℚ
  patrolDx : Option ℚ
deriving DecidableEq

/-- The spawns record of the server scene shape. -/
structure SSpawns where
  player : SSpawnPoint
  exit : SSpawnPoint
  enemies : List SEnemySpawn
  pickups : List SPickupSpawn
deriving DecidableEq

/-- A polygon surface `{type, poly}` of the server scene shape. -/
structure SSurface where
  type : String
  poly : List (ℚ × ℚ)
deriving DecidableEq

/-- The server-side Scene type (`SceneV1` of server/validation/scene, as
instantiated by the `FALLBACK_SCENE` literal): `version`, `image`,
`detections`, `spawns`, `surfaces`, `rules`. -/
structure ServerScene where
  version : ℚ
  image : ImageDims
  detections : List Json
  spawns : SSpawns
  surfaces : List SSurface
  rules : List Json

/-- `FALLBACK_SCENE` (server/fallback.ts): a basic level with three
platform surfaces and three coin pickups, in the server scene shape. -/
def FALLBACK_SCENE : ServerScene :=
  ⟨1, ⟨1024, 768⟩, [],
    ⟨⟨mkRat 1 20, mkRat 17 20⟩, ⟨mkRat 9 10, mkRat 3 20⟩, [],
      [⟨"coin", mkRat 3 10, mkRat 3 4⟩,
       ⟨"coin", mkRat 1 2, mkRat 11 20⟩,
       ⟨"coin", mkRat 7 10, mkRat 7 20⟩]⟩,
    [⟨"platform", [(0, mkRat 9 10), (1, mkRat 9 10), (1, mkRat 19 20), (0, mkRat 19 20)]⟩,
     ⟨"platform", [(mkRat 1 5, mkRat 7 10), (mkRat 9 20, mkRat 7 10),
                   (mkRat 9 20, mkRat 37 50), (mkRat 1 5, mkRat 37 50)]⟩,
     ⟨"platform", [(mkRat 11 20, mkRat 1 2), (mkRat 4 5, mkRat 1 2),
                   (mkRat 4 5, mkRat 27 50), (mkRat 11 20, mkRat 27 50)]⟩],
    []⟩

/-- The `FALLBACK_SCENE` literal as the JSON value it denotes. -/
def FALLBACK_SCENE_json : Json :=
  .obj [("version", .num 1),
        ("image", .obj [("w", .num 1024), ("h", .num 768)]),
        ("detections", .arr []),
        ("spawns", .obj
          [("player", .obj [("x", .num (mkRat 1 20)), ("y", .num (mkRat 17 20))]),
           ("exit", .obj [("x", .num (mkRat 9 10)), ("y", .num (mkRat 3 20))]),
           ("enemies", .arr []),
           ("pickups", .arr
             [.obj [("type", .str "coin"), ("x", .num (mkRat 3 10)), ("y", .num (mkRat 3 4))],
              .obj [("type", .str "coin"), ("x", .num (mkRat 1 2)), ("y", .num (mkRat 11 20))],
              .obj [("type", .str "coin"), ("x", .num (mkRat 7 10)), ("y", .num (mkRat 7 20))]])]),
        ("surfaces", .arr
          [.obj [("type", .str "platform"),
                 ("poly", .arr [.arr [.num 0, .num (mkRat 9 10)],
                                .arr [.num 1, .num (mkRat 9 10)],
                                .arr [.num 1, .num (mkRat 19 20)],
                                .arr [.num 0, .num (mkRat 19 20)]])],
           .obj [("type", .str "platform"),
                 ("poly", .arr [.arr [.num (mkRat 1 5), .num (mkRat 7 10)],
                                .arr [.num (mkRat 9 20), .num (mkRat 7 10)],
                                .arr [.num (mkRat 9 20), .num (mkRat 37 50)],
                                .arr [.num (mkRat 1 5), .num (mkRat 37 50)]])],
           .obj [("type", .str "platform"),
                 ("poly", .arr [.arr [.num (mkRat 11 20), .num (mkRat 1 2)],
                                .arr [.num (mkRat 4 5), .num (mkRat 1 2)],
                                .arr [.num (mkRat 4 5), .num (mkRat 27 50)],
                                .arr [.num (mkRat 11 20), .num (mkRat 27 50)]])]]),
        ("rules", .arr [])]

/-- What `parseSceneV1` produces from the fallback JSON: `objects` defaults
to the empty list (the fallback's platforms live in the legacy `surfaces`
key, which the schema strips). -/
def fallbackParsed : SceneV1 :=
  ⟨1, ⟨1024, 768⟩, [],
    ⟨⟨mkRat 1 20, mkRat 17 20⟩, ⟨mkRat 9 10, mkRat 3 20⟩, [],
      [⟨mkRat 3 10, mkRat 3 4, some "coin"⟩,
       ⟨mkRat 1 2, mkRat 11 20, some "coin"⟩,
       ⟨mkRat 7 10, mkRat 7 20, some "coin"⟩]⟩, []⟩

/-- A normalized coordinate pair lies in the unit square. -/
def pairIn01 (x y : ℚ) : Prop :=
  0 ≤ x ∧ x ≤ 1 ∧ 0 ≤ y ∧ y ≤ 1

/-- The §3 invariants of a validated Scene: version 1, positive integer
image dimensions, at most 25 objects, per-type caps, and every normalized
coordinate of bounds and spawn points in `[0,1]`. -/
def sceneInvariantsHold (s : SceneV1) : Prop :=
  s.version = 1 ∧
  s.image.w.den = 1 ∧ 0 < s.image.w ∧ s.image.h.den = 1 ∧ 0 < s.image.h ∧
  s.objects.length ≤ 25 ∧
  countObjType s.objects .platform ≤ 12 ∧
  countObjType s.objects .obstacle ≤ 8 ∧
  countObjType s.objects .collectible ≤ 10 ∧
  countObjType s.objects .hazard ≤ 8 ∧
  countObjType s.objects .enemy ≤ 2 ∧
  (∀ o ∈ s.objects,
    pairIn01 o.bounds_normalized.x o.bounds_normalized.y ∧
    pairIn01 o.bounds_normalized.w o.bounds_normalized.h) ∧
  pairIn01 s.spawns.player.x s.spawns.player.y ∧
  pairIn01 s.spawns.exit.x s.spawns.exit.y ∧
  (∀ e ∈ s.spawns.enemies, pairIn01 e.x e.y) ∧
  (∀ p ∈ s.spawns.pickups, pairIn01 p.x p.y)

/-- C4 counterexample: the fallback constant is accepted by the §3 schema,
but the resulting Scene has zero `platform` objects — it does not "contain
at minimum one ground-level platform" in the §3 data model, because its
platforms are stored under the legacy `surfaces` key. -/
theorem claim_C4_counterexample :
    parseSceneV1 FALLBACK_SCENE_json = .ok fallbackParsed ∧
    countObjType fallbackParsed.objects .platform = 0 :=
  ⟨by rfl, by decide⟩

/-- C4 (amended): `FALLBACK_SCENE` passes `parseSceneV1` and the parsed
Scene satisfies every §3 invariant and carries the three coin pickups; the
fallback's three platform polygons — one of them ground-level (every
vertex at height ≥ 0.9) — live in the legacy `surfaces` field of the
constant, not as §3 `objects`. -/
theorem claim_C4_fallback_invariants :
    parseSceneV1 FALLBACK_SCENE_json = .ok fallbackParsed ∧
    sceneInvariantsHold fallbackParsed ∧
    fallbackParsed.spawns.pickups.length = 3 ∧
    (FALLBACK_SCENE.surfaces.filter fun s => s.type == "platform").length = 3 ∧
    (∃ s ∈ FALLBACK_SCENE.surfaces, s.type = "platform" ∧
      ∀ pt ∈ s.poly, mkRat 9 10 ≤ pt.2) :=
  ⟨by rfl, by unfold sceneInvariantsHold pairIn01; decide, by decide, by decide, by decide⟩

-- ---------------------------------------------------------------------------
-- The recovery orchestrator analyzeImage (server/routes/scene.ts, vision
-- service section, lines 224–333)
--
-- External collaborators are modelled by an environment of outcomes:
-- * `firstCall` — the first `openai.chat.completions.create` call, collapsed
--   to its extracted content string (`choices[0]?.message?.content ?? ''`);
--   `.error` is a thrown transport/API error.
-- * `extractParse` — `JSON.parse(extractJson(text))`; `.error` is a thrown
--   parse error, `.ok` the resulting JavaScript value.
-- * `validate` — `validateScene`; `.error` models it throwing, `.ok` its
--   returned verdict.
-- * `repairCall` — the repair `create` call (its request includes the error
--   list), collapsed to its content string like `firstCall`.
-- * `elapsedMs` — the `Date.now() - t0` value at return; time is external
--   and does not affect control flow.
--
-- `analyzeImage` returns `.error` exactly when an exception would escape
-- the orchestrator (the source's try/catch placement decides this), and
-- otherwise the result together with the trace of attempted model calls.
-- ---------------------------------------------------------------------------

/-- Provenance tag (`source` field of `VisionResult`). -/
inductive Source where
  | ai
  | ai_repaired
  | fallback
deriving DecidableEq

/-- The `VisionResult` record of the vision service. -/
structure VisionResult where
  scene : ServerScene
  source : Source
  durationMs : ℕ

/-- The verdict returned by `validateScene`. -/
inductive VResult where
  | ok (scene : ServerScene)
  | fail (errors : List String)

/-- Labels for the external model calls attempted in one invocation. -/
inductive CallKind where
  | first
  | repair
deriving DecidableEq

/-- Outcomes of the orchestrator's external collaborators. -/
structure Env where
  firstCall : Except Unit String
  extractParse : String → Except Unit Json
  validate : Json → Except Unit VResult
  repairCall : List String → Except Unit String
  elapsedMs : ℕ

/-- The fallback terminal result. -/
def fallbackResult (elapsed : ℕ) : VisionResult :=
  ⟨FALLBACK_SCENE, .fallback, elapsed⟩

/-- `analyzeImage`: first attempt in a try/catch (catch returns fallback);
parse in a try/catch (catch sets `parsed = null`); `if (parsed)` guards
validation and the repair attempt; `validateScene(parsed)` on the first
attempt runs outside any try/catch; the whole repair attempt is inside a
try/catch whose catch falls through to fallback. -/
def analyzeImage (env : Env) : Except String (VisionResult × List CallKind) :=
  match env.firstCall with
  | .error _ => .ok (fallbackResult env.elapsedMs, [.first])
  | .ok rawText =>
    let parsed : Json :=
      match env.extractParse rawText with
      | .error _ => .null
      | .ok v => v
    if parsed.truthy then
      match env.validate parsed with
      | .error _ => .error "uncaught exception from validateScene"
      | .ok (.ok scene) => .ok (⟨scene, .ai, env.elapsedMs⟩, [.first])
      | .ok (.fail errors) =>
        match env.repairCall errors with
        | .error _ => .ok (fallbackResult env.elapsedMs, [.first, .repair])
        | .ok repairText =>
          match env.extractParse repairText with
          | .error _ => .ok (fallbackResult env.elapsedMs, [.first, .repair])
          | .ok repairParsed =>
            match env.validate repairParsed with
            | .error _ => .ok (fallbackResult env.elapsedMs, [.first, .repair])
            | .ok (.ok scene) => .ok (⟨scene, .ai_repaired, env.elapsedMs⟩, [.first, .repair])
            | .ok (.fail _) => .ok (fallbackResult env.elapsedMs, [.first, .repair])
    else
      .ok (fallbackResult env.elapsedMs, [.first])

/-- C2: as long as `validateScene` returns a verdict (the claim's
enumeration of collaborator outcomes: transport failure, unparseable text,
invalid payload, valid payload), `analyzeImage` never propagates an error:
it returns a result holding a scene, a provenance tag among ai /
ai_repaired / fallback, and the elapsed duration. -/
theorem claim_C2_never_throws (env : Env)
    (hval : ∀ j, env.validate j ≠ .error ()) :
    ∃ r tr, analyzeImage env = .ok (r, tr) ∧
      (r.source = .ai ∨ r.source = .ai_repaired ∨ r.source = .fallback) ∧
      r.durationMs = env.elapsedMs := by
  unfold analyzeImage
  rcases hf : env.firstCall with e | rawText
  · exact ⟨_, _, rfl, Or.inr (Or.inr rfl), rfl⟩
  · dsimp only
    by_cases ht : (match env.extractParse rawText with
        | .error _ => Json.null
        | .ok v => v).truthy = true
    · rw [if_pos ht]
      rcases hv : env.validate (match env.extractParse rawText with
          | .error _ => Json.null
          | .ok v => v) with e | vr
      · cases e
        exact absurd hv (hval _)
      · rcases vr with scene | errors
        · exact ⟨_, _, rfl, Or.inl rfl, rfl⟩
        · dsimp only
          rcases hr : env.repairCall errors with e2 | repairText
          · exact ⟨_, _, rfl, Or.inr (Or.inr rfl), rfl⟩
          · dsimp only
            rcases hep2 : env.extractParse repairText with e3 | repairParsed
            · exact ⟨_, _, rfl, Or.inr (Or.inr rfl), rfl⟩
            · dsimp only
              rcases hv2 : env.validate repairParsed with e4 | vr2
              · exact ⟨_, _, rfl, Or.inr (Or.inr rfl), rfl⟩
              · rcases vr2 with scene2 | errs2
                · exact ⟨_, _, rfl, Or.inr (Or.inl rfl), rfl⟩
                · exact ⟨_, _, rfl, Or.inr (Or.inr rfl), rfl⟩
    · rw [if_neg ht]
      exact ⟨_, _, rfl, Or.inr (Or.inr rfl), rfl⟩

/-- A concrete environment: the first call succeeds, extraction throws on
every text, validation always reports errors, the repair call throws. -/
def env0 : Env :=
  ⟨.ok "no json here", fun _ => .error (), fun _ => .ok (.fail []), fun _ => .error (), 5⟩

/-- Witness for C2 at the concrete environment `env0`. -/
theorem claim_C2_never_throws_witness :
    ∃ r tr, analyzeImage env0 = .ok (r, tr) ∧
      (r.source = .ai ∨ r.source = .ai_repaired ∨ r.source = .fallback) ∧
      r.durationMs = env0.elapsedMs :=
  claim_C2_never_throws env0 (by intro j h; exact absurd h (by simp [env0]))

/-- C3 counterexample: with the first call returning unparseable text
(extraction throws), the orchestrator returns the fallback after a single
external call — the trace `[first]` contains no repair call, so no second
model call is issued before the fallback is substituted. -/
theorem claim_C3_counterexample :
    analyzeImage env0 = .ok (fallbackResult 5, [CallKind.first]) := by rfl

/-- C3 (amended): when the first response's text contains no parseable
JSON, the orchestrator skips the repair attempt and substitutes the
fallback directly, with exactly one external call made; the repair attempt
is reached only when the first response parses to a truthy value that
fails validation. -/
theorem claim_C3_extraction_failure_goes_to_fallback (env : Env) (raw : String)
    (h1 : env.firstCall = .ok raw) (h2 : env.extractParse raw = .error ()) :
    analyzeImage env = .ok (fallbackResult env.elapsedMs, [CallKind.first]) := by
  unfold analyzeImage
  rw [h1]
  dsimp only
  rw [h2]
  rfl

/-- Witness for the amended C3 at the concrete environment `env0`. -/
theorem claim_C3_extraction_failure_witness :
    analyzeImage env0 = .ok (fallbackResult env0.elapsedMs, [CallKind.first]) :=
  claim_C3_extraction_failure_goes_to_fallback env0 "no json here" (by rfl) (by rfl)

/-- C6: each invocation attempts at most two external model calls, at most
one of them the repair attempt; and whenever the repair attempt was made
and did not succeed, the result is the fallback (no further retry). -/
theorem claim_C6_at_most_two_calls (env : Env) (r : VisionResult) (tr : List CallKind)
    (h : analyzeImage env = .ok (r, tr)) :
    tr.length ≤ 2 ∧ tr.count CallKind.repair ≤ 1 ∧
      (CallKind.repair ∈ tr → r.source = .ai_repaired ∨ r.source = .fallback) := by
  unfold analyzeImage at h
  rcases hf : env.firstCall with e | rawText <;> rw [hf] at h
  · simp only [Except.ok.injEq, Prod.mk.injEq] at h
    obtain ⟨rfl, rfl⟩ := h.symm
    exact ⟨by simp, by simp, fun _ => Or.inr rfl⟩
  · dsimp only at h
    by_cases ht : (match env.extractParse rawText with
        | .error _ => Json.null
        | .ok v => v).truthy = true
    · rw [if_pos ht] at h
      rcases hv : env.validate (match env.extractParse rawText with
          | .error _ => Json.null
          | .ok v => v) with e | vr <;> rw [hv] at h
      · exact absurd h (by simp)
      · rcases vr with scene | errors <;> dsimp only at h
        · simp only [Except.ok.injEq, Prod.mk.injEq] at h
          obtain ⟨rfl, rfl⟩ := h.symm
          exact ⟨by simp, by simp, by simp⟩
        · rcases hr : env.repairCall errors with e2 | repairText <;> rw [hr] at h
          · simp only [Except.ok.injEq, Prod.mk.injEq] at h
            obtain ⟨rfl, rfl⟩ := h.symm
            exact ⟨by simp, by simp, fun _ => Or.inr rfl⟩
          · dsimp only at h
            rcases hep2 : env.extractParse repairText with e3 | repairParsed <;>
              rw [hep2] at h
            · simp only [Except.ok.injEq, Prod.mk.injEq] at h
              obtain ⟨rfl, rfl⟩ := h.symm
              exact ⟨by simp, by simp, fun _ => Or.inr rfl⟩
            · dsimp only at h
              rcases hv2 : env.validate repairParsed with e4 | vr2 <;> rw [hv2] at h
              · simp only [Except.ok.injEq, Prod.mk.injEq] at h
                obtain ⟨rfl, rfl⟩ := h.symm
                exact ⟨by simp, by simp, fun _ => Or.inr rfl⟩
              · rcases vr2 with scene2 | errs2 <;> dsimp only at h <;>
                  simp only [Except.ok.injEq, Prod.mk.injEq] at h <;>
                  obtain ⟨rfl, rfl⟩ := h.symm
                · exact ⟨by simp, by simp, fun _ => Or.inl rfl⟩
                · exact ⟨by simp, by simp, fun _ => Or.inr rfl⟩
    · rw [if_neg ht] at h
      simp only [Except.ok.injEq, Prod.mk.injEq] at h
      obtain ⟨rfl, rfl⟩ := h.symm
      exact ⟨by simp, by simp, fun _ => Or.inr rfl⟩

/-- Witness for C6 at the concrete environment `env0`. -/
theorem claim_C6_at_most_two_calls_witness :
    [CallKind.first].length ≤ 2 ∧ [CallKind.first].count CallKind.repair ≤ 1 ∧
      (CallKind.repair ∈ [CallKind.first] →
        (fallbackResult 5).source = .ai_repaired ∨ (fallbackResult 5).source = .fallback) :=
  claim_C6_at_most_two_calls env0 (fallbackResult 5) [CallKind.first] (by rfl)

end RJ
